import Mathlib

/-!
Shallow embedding of the client-side behaviors of `src/assets/app.js`:
the `notification` banner component and the `barChart` benchmark chart
component (Alpine.js data objects). Browser `localStorage` is modelled as a
total map from keys to optional string values; the Highcharts configuration
object built by `render` is modelled by the fields of it that the spec talks
about (colors, x-axis categories, series data, and the data-label formatter).
A JavaScript property access that throws (reading `.categories` of
`undefined`) is modelled by `Option`: `render` returns `none` for the chart
in that case.
-/

namespace App

/-- Browser localStorage, modelled as a map from keys to optional strings.
`localStorage.getItem` returns `null` (here `none`) for an absent key. -/
abbrev Store := String → Option String

def emptyStore : Store := fun _ => none

/-- Model of `localStorage.getItem(key)`. -/
def getItem (store : Store) (key : String) : Option String :=
  store key

/-- Model of `localStorage.setItem(key, value)`. -/
def setItem (store : Store) (key : String) (value : String) : Store :=
  fun k => if k = key then some value else store k

/-- The storage key used by the notification component (`app.js` line 195). -/
def notificationStorageKey : String := "_x_notificationKey"

/-- JavaScript falsiness of a `localStorage.getItem` result: `null` and the
empty string are the falsy values a `getItem` call can produce, so
`!notificationKey` in `app.js` line 196 holds exactly on these. -/
def jsFalsy (v : Option String) : Prop :=
  v = none ∨ v = some ""

instance (v : Option String) : Decidable (jsFalsy v) :=
  inferInstanceAs (Decidable (v = none ∨ v = some ""))

/-- The reactive state of the `notification` component: its `isVisible`
field (`app.js` line 193). -/
structure NotificationState where
  isVisible : Bool
deriving DecidableEq, Repr

/-- The component is created with `isVisible: false` (`app.js` line 193). -/
def notification.initialState : NotificationState :=
  { isVisible := false }

/-- Model of `notification.init` (`app.js` lines 194-199): read the stored
key; if it is falsy or differs from `version`, set `isVisible` to `true`.
The store is returned unchanged: `init` only reads storage. -/
def notification.init (version : String) (st : NotificationState)
    (store : Store) : NotificationState × Store :=
  let notificationKey := getItem store notificationStorageKey
  (if jsFalsy notificationKey ∨ notificationKey ≠ some version then
    { st with isVisible := true }
  else
    st, store)

/-- Model of `notification.hide` (`app.js` lines 200-203): persist `version`
under the notification key and set `isVisible` to `false`. -/
def notification.hide (version : String) (st : NotificationState)
    (store : Store) : NotificationState × Store :=
  ({ st with isVisible := false },
    setItem store notificationStorageKey version)

/-- One entry of a benchmark's `categories` array (`app.js` lines 29-50). -/
structure Category where
  name : String
  color : String
deriving DecidableEq, Repr

/-- One benchmark dataset of the `barChart` component (`app.js` lines 27-52
and following). -/
structure Benchmark where
  title : String
  categories : List Category
  numbers : List Nat
deriving DecidableEq, Repr

/-- The fixed `benchmarks` list of the `barChart` component
(`app.js` lines 26-127). -/
def barChart.benchmarks : List Benchmark :=
  [ { title := "Flat object"
      categories :=
        [ { name := "VineJS", color := "#ca5bf2" }
        , { name := "Zod", color := "#408aff" }
        , { name := "Yup", color := "#6f6dff" }
        , { name := "Valibot", color := "#334155" }
        , { name := "Joi", color := "#ed7d31" } ]
      numbers := [13072620, 7420116, 746769, 6558725, 2252419] }
  , { title := "Nested objects"
      categories :=
        [ { name := "VineJS", color := "#ca5bf2" }
        , { name := "Zod", color := "#408aff" }
        , { name := "Yup", color := "#6f6dff" }
        , { name := "Valibot", color := "#334155" }
        , { name := "Joi", color := "#ed7d31" } ]
      numbers := [9445152, 3628979, 344506, 3363940, 1137401] }
  , { title := "Arrays"
      categories :=
        [ { name := "VineJS", color := "#ca5bf2" }
        , { name := "Zod", color := "#408aff" }
        , { name := "Yup", color := "#6f6dff" }
        , { name := "Valibot", color := "#334155" }
        , { name := "Joi", color := "#ed7d31" } ]
      numbers := [6810515, 3254923, 202143, 3064924, 795110] }
  , { title := "Unions"
      categories :=
        [ { name := "VineJS", color := "#ca5bf2" }
        , { name := "Zod", color := "#408aff" }
        , { name := "Valibot", color := "#334155" }
        , { name := "Joi", color := "#ed7d31" } ]
      numbers := [9949804, 2106060, 1124721, 957252] } ]

/-- Modelled from the spec: the `human-format` library used for the
data-label formatter (`app.js` line 177) is an external dependency whose
source is not in `src/`. The spec describes the labels as "human-readable
magnitudes (e.g., large integers abbreviated)" and gives the example that
13072620 is formatted as "13.1M". We model this as: divide by the largest
power of 1000 not exceeding the value, round to one decimal place, and
append the matching SI suffix. -/
def humanFormatScale (n : Nat) : Nat × String :=
  if n < 1000 then (1, "")
  else if n < 1000000 then (1000, "k")
  else if n < 1000000000 then (1000000, "M")
  else (1000000000, "G")

/-- Modelled from the spec: abbreviated-magnitude formatting of one number,
see `humanFormatScale`. -/
def humanFormat (n : Nat) : String :=
  let fs := humanFormatScale n
  let tenths := (n * 10 + fs.1 / 2) / fs.1
  toString (tenths / 10) ++ "." ++ toString (tenths % 10) ++ fs.2

/-- The fields of the Highcharts configuration object built by
`barChart.render` (`app.js` lines 132-182) that the spec constrains:
the color list, the x-axis category names, the series data, and the
per-point data-label formatter applied to each point's `y` value. -/
structure ChartConfig where
  colors : List String
  xAxisCategories : List String
  seriesData : List Nat
  dataLabelFormatter : Nat → String

/-- The reactive state of the `barChart` component: its `activeIndex` field
(`app.js` line 25). We take the argument of `render` to be an integer, as
the claims do, so `activeIndex` is an integer. -/
structure ChartState where
  activeIndex : Int
deriving DecidableEq, Repr

/-- The component is created with `activeIndex: 0` (`app.js` line 25). -/
def barChart.initialState : ChartState :=
  { activeIndex := 0 }

/-- Model of `barChart.render` (`app.js` lines 129-183): set `activeIndex`
to `index`, then read `this.benchmarks[index]` — which in JavaScript is
`undefined` for any integer index outside `[0, benchmarks.length)` — and
build the chart configuration from it. The subsequent property accesses on
`undefined` throw, so no chart is produced then: the configuration is
`none`. The `activeIndex` assignment happens before the failing access, so
the returned state carries `index` in every case. -/
def barChart.render (st : ChartState) (index : Int) :
    ChartState × Option ChartConfig :=
  let st' : ChartState := { st with activeIndex := index }
  let benchmark? : Option Benchmark :=
    if 0 ≤ index then barChart.benchmarks.get? index.toNat else none
  (st', benchmark?.map fun benchmark =>
    { colors := benchmark.categories.map Category.color
      xAxisCategories := benchmark.categories.map Category.name
      seriesData := benchmark.numbers
      dataLabelFormatter := humanFormat })

/-- Model of `barChart.init` (`app.js` lines 185-187): render dataset 0. -/
def barChart.init (st : ChartState) : ChartState × Option ChartConfig :=
  barChart.render st 0

/-!
Theorems about the notification component.
-/

/-- C1 counterexample: with version `""` and the key stored with value `""`,
the persisted key exists and equals the version, yet `init` makes the
notification visible, because `!notificationKey` in `app.js` line 196 treats
the empty string as falsy. This refutes the claim as stated at the concrete
input V = "". -/
theorem C1_counterexample :
    getItem (setItem emptyStore notificationStorageKey "")
        notificationStorageKey = some "" ∧
    (notification.init "" notification.initialState
        (setItem emptyStore notificationStorageKey "")).1.isVisible = true := by
  decide

/-- C1 amended: for every version string V, if the persisted key
`_x_notificationKey` exists and equals V, and V is not the empty string,
then after the notification component's `init` runs with version V,
`isVisible` is false. -/
theorem C1_amended_thm (V : String) (store : Store)
    (hk : getItem store notificationStorageKey = some V) (hV : V ≠ "") :
    (notification.init V notification.initialState store).1.isVisible = false := by
  simp [notification.init, hk, jsFalsy, hV, notification.initialState]

/-- C1 witness: the amended theorem applied at version "2.1.0" with the key
stored as "2.1.0". -/
theorem C1_witness :
    (notification.init "2.1.0" notification.initialState
        (setItem emptyStore notificationStorageKey "2.1.0")).1.isVisible = false :=
  C1_amended_thm "2.1.0" (setItem emptyStore notificationStorageKey "2.1.0")
    (by decide) (by decide)

/-- C3 counterexample: after `init` with version `""` on a store whose key
holds `""`, `isVisible` is true although the persisted key does not differ
from the current version string — the stated invariant fails after `init`. -/
theorem C3_counterexample :
    (notification.init "" notification.initialState
        (setItem emptyStore notificationStorageKey "")).1.isVisible = true ∧
    getItem (setItem emptyStore notificationStorageKey "")
        notificationStorageKey = some "" ∧
    ("" : String) = "" := by
  decide

/-- C3 amended: after `init` (from the freshly created state) `isVisible`
is true only if the persisted key is absent, empty, or differs from the
current version string; after `hide` (from any state) `isVisible` is false,
so the invariant holds vacuously there. -/
theorem C3_amended_thm (V : String) (store : Store) (st : NotificationState) :
    ((notification.init V notification.initialState store).1.isVisible = true →
      jsFalsy (getItem store notificationStorageKey) ∨
        getItem store notificationStorageKey ≠ some V) ∧
    ((notification.hide V st store).1.isVisible = true →
      getItem (notification.hide V st store).2 notificationStorageKey ≠ some V) := by
  constructor
  · by_cases hc : jsFalsy (getItem store notificationStorageKey) ∨
        getItem store notificationStorageKey ≠ some V
    · exact fun _ => hc
    · intro h
      exfalso
      simp only [notification.init, if_neg hc] at h
      exact absurd h (by simp [notification.initialState])
  · intro h
    simp [notification.hide] at h

/-- C3 witness: the amended invariant applied after `init` with version
"2.1.0" on the empty store, where the banner is indeed visible. -/
theorem C3_witness :
    jsFalsy (getItem emptyStore notificationStorageKey) ∨
      getItem emptyStore notificationStorageKey ≠ some "2.1.0" :=
  (C3_amended_thm "2.1.0" emptyStore notification.initialState).1 (by decide)

/-- C5: for every version string V, every prior state and every prior
storage content, after `hide` runs with version V the persisted key
`_x_notificationKey` equals V and `isVisible` is false. -/
theorem C5_thm (V : String) (st : NotificationState) (store : Store) :
    getItem (notification.hide V st store).2 notificationStorageKey = some V ∧
    (notification.hide V st store).1.isVisible = false := by
  constructor
  · simp [notification.hide, getItem, setItem]
  · rfl

/-- C6: for every version string V, if no persisted key
`_x_notificationKey` exists in storage (`getItem` reads `none`), then after
the notification component's `init` runs with version V, `isVisible` is
true. -/
theorem C6_thm (V : String) (store : Store)
    (h : getItem store notificationStorageKey = none) :
    (notification.init V notification.initialState store).1.isVisible = true := by
  simp [notification.init, h, jsFalsy]

/-- C6 witness: the theorem applied at version "2.1.0" and the empty
store. -/
theorem C6_witness :
    (notification.init "2.1.0" notification.initialState
        emptyStore).1.isVisible = true :=
  C6_thm "2.1.0" emptyStore (by decide)

/-- C9: `init` leaves the store unchanged for every version string, state
and prior storage content, and `hide` writes exactly the one key
`_x_notificationKey` — that key afterwards holds the version, and every
other key is unchanged. -/
theorem C9_thm (V : String) (st : NotificationState) (store : Store) :
    (notification.init V st store).2 = store ∧
    getItem (notification.hide V st store).2 notificationStorageKey = some V ∧
    ∀ k, k ≠ notificationStorageKey →
      getItem (notification.hide V st store).2 k = getItem store k := by
  refine ⟨rfl, ?_, ?_⟩
  · simp [notification.hide, getItem, setItem]
  · intro k hk
    simp [notification.hide, getItem, setItem, hk]

/-- C9 witness: the theorem applied at version "2.1.0", the fresh state and
the empty store, with the unrelated key "other". -/
theorem C9_witness :
    (notification.init "2.1.0" notification.initialState emptyStore).2 =
      emptyStore ∧
    getItem (notification.hide "2.1.0" notification.initialState
        emptyStore).2 "other" = getItem emptyStore "other" :=
  ⟨(C9_thm "2.1.0" notification.initialState emptyStore).1,
    (C9_thm "2.1.0" notification.initialState emptyStore).2.2 "other" (by decide)⟩

/-- C10: dismiss-then-reload round trip — for every version string V other
than the empty string, calling `hide` with version V and then running
`init` with the same version V on the resulting state and store leaves
`isVisible` false. The precondition V ≠ "" is required: `init` treats an
empty stored key as falsy, the same as an absent one. -/
theorem C10_thm (V : String) (st : NotificationState) (store : Store)
    (hV : V ≠ "") :
    (notification.init V (notification.hide V st store).1
        (notification.hide V st store).2).1.isVisible = false := by
  simp [notification.hide, notification.init, getItem, setItem, jsFalsy, hV]

/-- C10 witness: the theorem applied at version "2.1.0", the fresh state
and the empty store. -/
theorem C10_witness :
    (notification.init "2.1.0"
        (notification.hide "2.1.0" notification.initialState emptyStore).1
        (notification.hide "2.1.0" notification.initialState emptyStore).2).1.isVisible
      = false :=
  C10_thm "2.1.0" notification.initialState emptyStore (by decide)

/-!
Theorems about the barChart component.
-/

/-- C2 counterexample: at index 4 — which is out of range, since the
benchmarks list has length 4 — `render` neither rejects nor clamps: it
reads the nonexistent dataset `benchmarks[4]` (undefined) and the property
access on it throws, so no chart is produced (`none`), and `activeIndex`
has already been mutated to the out-of-range value 4. -/
theorem C2_counterexample :
    ¬ (4 : Int) < (barChart.benchmarks.length : Int) ∧
    (barChart.render barChart.initialState 4).2.isNone = true ∧
    (barChart.render barChart.initialState 4).1.activeIndex = 4 := by
  decide

/-- C2 amended: an out-of-range index is neither rejected nor clamped —
`render` produces a chart configuration exactly when the index is in
`[0, benchmarks.length)`, and otherwise fails (throws while accessing the
nonexistent dataset, modelled by `none`) after having set `activeIndex` to
the out-of-range value; this out-of-range failure is the only failure mode
of `render`. -/
theorem C2_amended_thm (st : ChartState) (i : Int) :
    ((barChart.render st i).2.isSome = true ↔
      0 ≤ i ∧ i < (barChart.benchmarks.length : Int)) ∧
    (barChart.render st i).1.activeIndex = i := by
  have hlen : barChart.benchmarks.length = 4 := rfl
  refine ⟨?_, rfl⟩
  unfold barChart.render
  by_cases h0 : 0 ≤ i
  · simp only [if_pos h0, Option.isSome_map', Option.isSome_iff_ne_none, ne_eq,
      List.get?_eq_getElem?, List.getElem?_eq_none_iff, not_le, hlen]
    omega
  · simp only [if_neg h0, Option.map_none', Option.isSome_none,
      Bool.false_eq_true, false_iff, not_and]
    intro h
    exact absurd h h0

/-- C2 witness: the amended theorem applied at the in-range index 1 from
the initial state — a chart is produced and `activeIndex` becomes 1. -/
theorem C2_witness :
    (barChart.render barChart.initialState 1).2.isSome = true ∧
    (barChart.render barChart.initialState 1).1.activeIndex = 1 :=
  ⟨(C2_amended_thm barChart.initialState 1).1.mpr (by decide),
    (C2_amended_thm barChart.initialState 1).2⟩

/-- C4: every dataset in the fixed benchmarks list has as many categories
as numbers, and for every state and every valid index i, rendering dataset
i produces a chart whose x-axis category count equals the length of its
series data array. -/
theorem C4_thm :
    (∀ b ∈ barChart.benchmarks, b.categories.length = b.numbers.length) ∧
    ∀ (st : ChartState) (i : Int),
      0 ≤ i → i < (barChart.benchmarks.length : Int) →
      Option.any (fun cfg => cfg.xAxisCategories.length == cfg.seriesData.length)
        (barChart.render st i).2 = true := by
  refine ⟨by decide, ?_⟩
  intro st i h0 h4
  have hlen : (barChart.benchmarks.length : Int) = 4 := rfl
  rw [hlen] at h4
  interval_cases i <;> rfl

/-- C4 witness: the theorem applied at the initial state and index 2. -/
theorem C4_witness :
    Option.any (fun cfg => cfg.xAxisCategories.length == cfg.seriesData.length)
      (barChart.render barChart.initialState 2).2 = true :=
  C4_thm.2 barChart.initialState 2 (by decide) (by decide)

/-- C7 counterexample: calling `render` with the integer -1 sets
`activeIndex` to -1, which is outside `[0, benchmarks.length)` — the code
assigns `this.activeIndex = index` before any dataset access and performs
no bounds check, so the stated invariant fails. -/
theorem C7_counterexample :
    (barChart.render barChart.initialState (-1)).1.activeIndex = -1 ∧
    ¬ 0 ≤ (barChart.render barChart.initialState (-1)).1.activeIndex := by
  decide

/-- C7 amended: `activeIndex` is 0 after `init`, and after `render` it
equals exactly the integer argument passed — hence it lies in
`[0, benchmarks.length)` after every `render` call whose argument is in
that range, but a `render` call with an out-of-range argument stores the
out-of-range value. -/
theorem C7_amended_thm (st : ChartState) (i : Int) :
    (barChart.init st).1.activeIndex = 0 ∧
    (barChart.render st i).1.activeIndex = i ∧
    (0 ≤ i → i < (barChart.benchmarks.length : Int) →
      0 ≤ (barChart.render st i).1.activeIndex ∧
      (barChart.render st i).1.activeIndex < (barChart.benchmarks.length : Int)) :=
  ⟨rfl, rfl, fun h0 h4 => ⟨h0, h4⟩⟩

/-- C7 witness: the amended theorem applied at the initial state and the
in-range index 2. -/
theorem C7_witness :
    (barChart.init barChart.initialState).1.activeIndex = 0 ∧
    0 ≤ (barChart.render barChart.initialState 2).1.activeIndex ∧
    (barChart.render barChart.initialState 2).1.activeIndex <
      (barChart.benchmarks.length : Int) :=
  ⟨(C7_amended_thm barChart.initialState 2).1,
    ((C7_amended_thm barChart.initialState 2).2.2 (by decide) (by decide)).1,
    ((C7_amended_thm barChart.initialState 2).2.2 (by decide) (by decide)).2⟩

/-- C8: the first dataset has title "Flat object", the five categories
VineJS, Zod, Yup, Valibot, Joi in that order, and the numbers
[13072620, 7420116, 746769, 6558725, 2252419]; rendering index 0 produces
a chart with 5 bars whose data labels are the abbreviated magnitudes of
those numbers, the first being "13.1M". -/
theorem C8_thm :
    (barChart.benchmarks.get? 0).map Benchmark.title = some "Flat object" ∧
    (barChart.benchmarks.get? 0).map (fun b => b.categories.map Category.name) =
      some ["VineJS", "Zod", "Yup", "Valibot", "Joi"] ∧
    (barChart.benchmarks.get? 0).map Benchmark.numbers =
      some [13072620, 7420116, 746769, 6558725, 2252419] ∧
    (barChart.render barChart.initialState 0).2.map
        (fun cfg => cfg.seriesData.length) = some 5 ∧
    (barChart.render barChart.initialState 0).2.map
        (fun cfg => cfg.seriesData.map cfg.dataLabelFormatter) =
      some ["13.1M", "7.4M", "746.8k", "6.6M", "2.3M"] := by
  refine ⟨by decide, by decide, by decide, by decide, by decide⟩

end App
